import Mathlib

/-!
# Verification of the YSZ capital-gains-tax core

Shallow embedding of the repository's core components
(`src/core/fact.py`, `src/core/fact_ledger.py`, `src/core/rule_engine.py`,
`src/core/tax_calculator.py`, `src/core/calculation_trace.py`) and proofs
about them.

Modelling conventions:
* Python `Decimal` amounts and fractional rates are modelled as `ℚ`
  (all amounts and rates appearing in the rule data are exact decimals,
  so `ℚ` arithmetic coincides with `Decimal`/short-float arithmetic on
  every value reached here).
* Python `date` values are modelled by a calendar `Date` structure with an
  exact day-number conversion, so date subtraction (`.days`) and ordering
  agree with `datetime.date`.
* Exceptions are modelled by `Except` with one error constructor per
  distinct error kind raised by the source.
* Timestamp bookkeeping (`entered_at`, `created_at`, `calculation_time`)
  carries no logic and is omitted from the structures.
-/

set_option autoImplicit false

deriving instance DecidableEq for Except

namespace YSZ

/-- A calendar date, as stored in Python `datetime.date` fields. -/
structure Date where
  year : Int
  month : Int
  day : Int
deriving DecidableEq

/-- Day number of a civil date (days since 1970-01-01, Gregorian calendar).
Python's `date2 - date1` yields `date2.toDays - date1.toDays` days, and
`date1 < date2` iff `date1.toDays < date2.toDays`. -/
def Date.toDays (dt : Date) : Int :=
  let y := dt.year - (if dt.month ≤ 2 then 1 else 0)
  let era := Int.fdiv y 400
  let yoe := y - era * 400
  let mp := (dt.month + 9) % 12
  let doy := Int.fdiv (153 * mp + 2) 5 + dt.day - 1
  let doe := yoe * 365 + Int.fdiv yoe 4 - Int.fdiv yoe 100 + doy
  era * 146097 + doe - 719468

/-- `Fact` (src/core/fact.py): immutable value wrapper with provenance
metadata.  The `entered_at` timestamp is omitted (no logic depends on it). -/
structure Fact (α : Type) where
  value : α
  source : String
  confidence : ℚ
  is_confirmed : Bool
  entered_by : String
  notes : Option String
  reference : Option String
  rule_version : Option String
  reasoning_trace : Option String
deriving DecidableEq

/-- Validation errors raised by `Fact.__post_init__`. -/
inductive FactError
  /-- "confidence는 0.0에서 1.0 사이여야 합니다" -/
  | confidenceOutOfRange
  /-- "확정된 값(is_confirmed=True)은 confidence가 1.0이어야 합니다" -/
  | confirmedNeedsFullConfidence
deriving DecidableEq

/-- Constructing a `Fact` runs `__post_init__`: the confidence must lie in
[0, 1], and a confirmed fact must have confidence exactly 1.0 (checked in
that order). -/
def mkFact {α : Type} (value : α) (source : String) (confidence : ℚ)
    (is_confirmed : Bool) (entered_by : String)
    (notes reference rule_version reasoning_trace : Option String) :
    Except FactError (Fact α) :=
  if ¬ (0 ≤ confidence ∧ confidence ≤ 1) then
    .error .confidenceOutOfRange
  else if is_confirmed = true ∧ confidence ≠ 1 then
    .error .confirmedNeedsFullConfidence
  else
    .ok ⟨value, source, confidence, is_confirmed, entered_by,
         notes, reference, rule_version, reasoning_trace⟩

/-- Python `new_notes or self.notes`: `or` falls through on `None` and on
the empty string (falsy). -/
def orNotes (new : Option String) (old : Option String) : Option String :=
  match new with
  | some s => if s = "" then old else some s
  | none => old

/-- `Fact.confirm`: returns a new `Fact` with `is_confirmed = True` and
`confidence = 1.0`; never mutates. -/
def Fact.confirm {α : Type} (f : Fact α) (confirmed_by : String)
    (notes : Option String) : Fact α :=
  { value := f.value
    source := f.source
    confidence := 1
    is_confirmed := true
    entered_by := confirmed_by
    notes := orNotes notes f.notes
    reference := f.reference
    rule_version := f.rule_version
    reasoning_trace := f.reasoning_trace }

/-- `Fact.update_value`: returns a new `Fact` with the new value, the old
confidence, and `is_confirmed = False` (confirmation is reset). -/
def Fact.update_value {α : Type} (f : Fact α) (new_value : α)
    (updated_by : String) (notes : Option String) : Fact α :=
  { value := new_value
    source := f.source
    confidence := f.confidence
    is_confirmed := false
    entered_by := updated_by
    notes := orNotes notes f.notes
    reference := f.reference
    rule_version := f.rule_version
    reasoning_trace := f.reasoning_trace }

/-- The documented `Fact` invariant: a confirmed fact has confidence 1.0. -/
def factInvariant {α : Type} (f : Fact α) : Prop :=
  f.is_confirmed = true → f.confidence = 1

instance {α : Type} (f : Fact α) : Decidable (factInvariant f) := by
  unfold factInvariant; infer_instance

/-- One step of a `confirm()` / `update_value()` chain. -/
inductive FactOp (α : Type)
  | confirmOp (confirmed_by : String) (notes : Option String)
  | updateOp (new_value : α) (updated_by : String) (notes : Option String)

/-- Apply a chain of `confirm()` / `update_value()` calls left to right. -/
def applyFactOps {α : Type} (f : Fact α) : List (FactOp α) → Fact α
  | [] => f
  | .confirmOp b n :: rest => applyFactOps (f.confirm b n) rest
  | .updateOp v b n :: rest => applyFactOps (f.update_value v b n) rest

/-- Errors raised by `FactLedger` methods (`src/core/fact_ledger.py`), one
constructor per distinct error site. -/
inductive LedgerError
  /-- "이미 확정된 FactLedger입니다" (double freeze). -/
  | alreadyFrozen
  /-- "필수 필드 ...가 설정되지 않았습니다" (required field absent). -/
  | missingField (field_name : String)
  /-- "필드 ...가 확정되지 않았습니다" (required field not confirmed). -/
  | notConfirmed (field_name : String)
  /-- "처분일은 취득일보다 이전일 수 없습니다". -/
  | disposalBeforeAcquisition
  /-- "...는 음수일 수 없습니다" (negative amount or period). -/
  | negativeAmount (field_name : String)
  /-- "확정된 FactLedger는 수정할 수 없습니다" (modify after freeze). -/
  | frozenModification
deriving DecidableEq

/-- `FactLedger` (src/core/fact_ledger.py): named `Fact` slots plus
metadata.  The `created_at` timestamp is omitted. -/
structure FactLedger where
  transaction_id : String
  transaction_date : Option (Fact Date)
  asset_type : Option (Fact String)
  asset_description : Option (Fact String)
  acquisition_date : Option (Fact Date)
  acquisition_price : Option (Fact ℚ)
  disposal_date : Option (Fact Date)
  disposal_price : Option (Fact ℚ)
  acquisition_cost : Option (Fact ℚ)
  disposal_cost : Option (Fact ℚ)
  improvement_cost : Option (Fact ℚ)
  is_primary_residence : Option (Fact Bool)
  residence_period_years : Option (Fact Int)
  house_count : Option (Fact Int)
  created_by : String
  version : Int
  notes : Option String
  is_frozen : Bool
deriving DecidableEq

/-- A required slot passes `freeze()`'s per-field check when it is present
and its fact is confirmed. -/
def presentConfirmed {α : Type} (slot : Option (Fact α)) : Bool :=
  match slot with
  | some f => f.is_confirmed
  | none => false

/-- The per-field loop body of `freeze()`: absent → "missing" error,
unconfirmed → "not confirmed" error. -/
def checkFact {α : Type} (field_name : String) (slot : Option (Fact α)) :
    Except LedgerError (Fact α) :=
  match slot with
  | none => .error (.missingField field_name)
  | some f => if f.is_confirmed then .ok f else .error (.notConfirmed field_name)

/-- `_validate`'s date check holds: the disposal date is not before the
acquisition date (vacuously when either is absent). -/
def datesOrdered (l : FactLedger) : Bool :=
  match l.disposal_date, l.acquisition_date with
  | some dd, some ad => decide (ad.value.toDays ≤ dd.value.toDays)
  | _, _ => true

/-- `_validate`'s amount check holds: a present monetary fact is
non-negative. -/
def nonnegAmount (slot : Option (Fact ℚ)) : Bool :=
  slot.all fun f => decide (0 ≤ f.value)

/-- `_validate`'s period check holds: a present period fact is
non-negative. -/
def nonnegPeriod (slot : Option (Fact Int)) : Bool :=
  slot.all fun f => decide (0 ≤ f.value)

/-- `FactLedger._validate` (named `validate` here): checks date ordering,
then the two prices, the three cost fields, and the residence period, in
source order, raising on the first violation. -/
def FactLedger.validate (l : FactLedger) : Except LedgerError Unit :=
  if datesOrdered l = false then .error .disposalBeforeAcquisition
  else if nonnegAmount l.acquisition_price = false then .error (.negativeAmount "acquisition_price")
  else if nonnegAmount l.disposal_price = false then .error (.negativeAmount "disposal_price")
  else if nonnegAmount l.acquisition_cost = false then .error (.negativeAmount "acquisition_cost")
  else if nonnegAmount l.disposal_cost = false then .error (.negativeAmount "disposal_cost")
  else if nonnegAmount l.improvement_cost = false then .error (.negativeAmount "improvement_cost")
  else if nonnegPeriod l.residence_period_years = false then .error (.negativeAmount "residence_period_years")
  else .ok ()

/-- `FactLedger.freeze`: fails on a second call, requires the four required
fields present and confirmed, runs `_validate`, then marks the ledger
frozen. -/
def FactLedger.freeze (l : FactLedger) : Except LedgerError FactLedger :=
  if l.is_frozen then .error .alreadyFrozen
  else
    match checkFact "acquisition_date" l.acquisition_date with
    | .error e => .error e
    | .ok _ =>
      match checkFact "acquisition_price" l.acquisition_price with
      | .error e => .error e
      | .ok _ =>
        match checkFact "disposal_date" l.disposal_date with
        | .error e => .error e
        | .ok _ =>
          match checkFact "disposal_price" l.disposal_price with
          | .error e => .error e
          | .ok _ =>
            match l.validate with
            | .error e => .error e
            | .ok _ => .ok { l with is_frozen := true }

/-- A typed field update handed to `update_field` (one constructor per
`Fact` slot of the ledger). -/
inductive FieldUpdate
  | transaction_date (f : Fact Date)
  | asset_type (f : Fact String)
  | asset_description (f : Fact String)
  | acquisition_date (f : Fact Date)
  | acquisition_price (f : Fact ℚ)
  | disposal_date (f : Fact Date)
  | disposal_price (f : Fact ℚ)
  | acquisition_cost (f : Fact ℚ)
  | disposal_cost (f : Fact ℚ)
  | improvement_cost (f : Fact ℚ)
  | is_primary_residence (f : Fact Bool)
  | residence_period_years (f : Fact Int)
  | house_count (f : Fact Int)

/-- `FactLedger.update_field` on the `Fact` slots: rejected outright on a
frozen ledger, otherwise replaces the slot. -/
def FactLedger.update_field (l : FactLedger) (u : FieldUpdate) :
    Except LedgerError FactLedger :=
  if l.is_frozen then .error .frozenModification
  else .ok (match u with
    | .transaction_date f => { l with transaction_date := some f }
    | .asset_type f => { l with asset_type := some f }
    | .asset_description f => { l with asset_description := some f }
    | .acquisition_date f => { l with acquisition_date := some f }
    | .acquisition_price f => { l with acquisition_price := some f }
    | .disposal_date f => { l with disposal_date := some f }
    | .disposal_price f => { l with disposal_price := some f }
    | .acquisition_cost f => { l with acquisition_cost := some f }
    | .disposal_cost f => { l with disposal_cost := some f }
    | .improvement_cost f => { l with improvement_cost := some f }
    | .is_primary_residence f => { l with is_primary_residence := some f }
    | .residence_period_years f => { l with residence_period_years := some f }
    | .house_count f => { l with house_count := some f })

/-- Attribute names of the `FactLedger` class: the dataclass fields, the
two properties, and the methods defined on the class (dunder methods
inherited from `object` are not listed; `update_field` is never called with
them in the repository and they behave like the methods listed here). -/
def factLedgerAttrNames : List String :=
  ["transaction_id", "transaction_date", "asset_type", "asset_description",
   "acquisition_date", "acquisition_price", "disposal_date", "disposal_price",
   "acquisition_cost", "disposal_cost", "improvement_cost",
   "is_primary_residence", "residence_period_years", "house_count",
   "created_at", "created_by", "version", "notes", "is_frozen",
   "capital_gain", "holding_period_years",
   "create", "freeze", "_validate", "update_field",
   "get_confidence_summary", "get_unconfirmed_fields",
   "create_new_version", "to_dict"]

/-- The read-only properties of `FactLedger` (`@property` without a
setter): `setattr` on these raises `AttributeError`. -/
def factLedgerReadOnlyProps : List String :=
  ["capital_gain", "holding_period_years"]

/-- Outcome of an `update_field(field_name, fact)` call at the Python
attribute level. -/
inductive UpdateOutcome
  /-- `ValueError`: frozen ledgers cannot be modified. -/
  | frozenError
  /-- `AttributeError` raised by `update_field` itself: `hasattr` is false. -/
  | missingAttrError
  /-- `AttributeError` raised by `setattr` on a read-only property. -/
  | cantSetAttrError
  /-- The attribute is overwritten with the given fact. -/
  | accepted
deriving DecidableEq

/-- `update_field`'s dispatch on the field name: the frozen check runs
first, then `hasattr`, then `setattr` (which fails on a read-only
property). -/
def updateFieldOutcome (is_frozen : Bool) (field_name : String) : UpdateOutcome :=
  if is_frozen then .frozenError
  else if field_name ∈ factLedgerAttrNames then
    if field_name ∈ factLedgerReadOnlyProps then .cantSetAttrError
    else .accepted
  else .missingAttrError

/-- An `update_field` call raises `AttributeError` (either kind). -/
def UpdateOutcome.isAttributeError : UpdateOutcome → Bool
  | .missingAttrError => true
  | .cantSetAttrError => true
  | _ => false

/-- `FactLedger.holding_period_years`: floor of the day difference divided
by 365 (`None` when either date is absent). -/
def FactLedger.holding_period_years (l : FactLedger) : Option Int :=
  match l.acquisition_date, l.disposal_date with
  | some ad, some dd => some (Int.fdiv (dd.value.toDays - ad.value.toDays) 365)
  | _, _ => none

/-- One progressive bracket row (`progressive_tax_brackets[]` in the rule
table): `threshold` is the inclusive upper bound (`None` for the top
catch-all bracket); `deduction` defaults to 0 when absent
(`bracket.get('deduction', 0)`). -/
structure Bracket where
  threshold : Option ℚ
  rate : ℚ
  deduction : Option ℚ
  description : String
deriving DecidableEq

/-- The bracket-selection test of `calculate_progressive_tax`:
`threshold is None or taxable_income <= threshold`. -/
def bracketMatches (taxable_income : ℚ) (b : Bracket) : Bool :=
  match b.threshold with
  | none => true
  | some t => decide (taxable_income ≤ t)

/-- `RuleEngine.calculate_progressive_tax`: linear scan returning the first
matching bracket's `(rate, deduction, description)`, falling back to the
last bracket (`brackets[-1]`; `none` models the `IndexError` on an empty
table). -/
def calculate_progressive_tax (brackets : List Bracket) (taxable_income : ℚ) :
    Option (ℚ × ℚ × String) :=
  match brackets.find? (bracketMatches taxable_income) with
  | some b => some (b.rate, b.deduction.getD 0, b.description)
  | none => brackets.getLast?.map fun b => (b.rate, b.deduction.getD 0, b.description)

/-- One short-term flat-rate row (`short_term_rates{}` in the rule table);
`holding_period_min` defaults to 0 and `holding_period_max` to 999. -/
structure ShortTermRow where
  name : String
  asset_type : String
  holding_period_min : Option Int
  holding_period_max : Option Int
  rate : ℚ
  description : String
  legal_basis : String
deriving DecidableEq

/-- The row test of `get_short_term_rate`: exact `asset_type` match and
`holding_period_min <= years < holding_period_max`. -/
def shortTermRowMatches (asset_type : String) (holding_period_years : Int)
    (r : ShortTermRow) : Bool :=
  r.asset_type == asset_type
    && decide (r.holding_period_min.getD 0 ≤ holding_period_years)
    && decide (holding_period_years < r.holding_period_max.getD 999)

/-- `RuleEngine.get_short_term_rate`: `None` for holdings of 2 years or
more, otherwise the first matching row (or `None` when no row covers the
input). -/
def get_short_term_rate (rows : List ShortTermRow) (asset_type : String)
    (holding_period_years : Int) : Option ShortTermRow :=
  if 2 ≤ holding_period_years then none
  else rows.find? (shortTermRowMatches asset_type holding_period_years)

/-- One surcharge tier (`multi_house_surcharge.*`); `additional_rate`
defaults to 0.0 when absent. -/
structure SurchargeTier where
  additional_rate : Option ℚ
deriving DecidableEq

/-- `multi_house_surcharge` section of the rule table. -/
structure MultiHouseSurcharge where
  two_houses : SurchargeTier
  three_or_more_houses : SurchargeTier
deriving DecidableEq

/-- `RuleEngine.get_multi_house_surcharge`: 0 outside adjusted areas or for
holdings under 2 years, otherwise tiered by house count. -/
def get_multi_house_surcharge (s : MultiHouseSurcharge) (house_count : Int)
    (is_adjusted_area : Bool) (holding_period_years : Int) : ℚ :=
  if is_adjusted_area = false ∨ holding_period_years < 2 then 0
  else if 3 ≤ house_count then s.three_or_more_houses.additional_rate.getD 0
  else if house_count = 2 then s.two_houses.additional_rate.getD 0
  else 0

/-- `deductions.long_term_holding_deduction.one_house_owner`: years-held
and years-resided rate tables plus a cap (`max_rate` defaults to 0.80). -/
structure OneHouseOwnerRule where
  base_rates : List (Int × ℚ)
  residence_rates : List (Int × ℚ)
  max_rate : Option ℚ
deriving DecidableEq

/-- `deductions.long_term_holding_deduction.general`: single years-held
rate table plus a cap (`max_rate` defaults to 0.30). -/
structure GeneralDeductionRule where
  rates : List (Int × ℚ)
  max_rate : Option ℚ
deriving DecidableEq

/-- `deductions.long_term_holding_deduction` section of the rule table. -/
structure LongTermHoldingDeduction where
  one_house_owner : OneHouseOwnerRule
  general : GeneralDeductionRule
deriving DecidableEq

/-- The rate-table loop of `calculate_long_term_deduction_rate`: scan all
rows in table order, keeping the rate of the last row whose year threshold
is at most `years` (0 when no row qualifies). -/
def lastMatchingRate (rows : List (Int × ℚ)) (years : Int) : ℚ :=
  rows.foldl (fun acc row => if row.1 ≤ years then row.2 else acc) 0

/-- `RuleEngine.calculate_long_term_deduction_rate`: 0 under 3 years held;
the summed one-house-owner track (capped at its `max_rate`, default 0.80)
when primary residence with at least 2 years of residence; otherwise the
general track (capped at its `max_rate`, default 0.30). -/
def calculate_long_term_deduction_rate (d : LongTermHoldingDeduction)
    (holding_period_years : Int) (is_primary_residence : Bool)
    (residence_period_years : Int) : ℚ :=
  if holding_period_years < 3 then 0
  else if is_primary_residence = true ∧ 2 ≤ residence_period_years then
    min (lastMatchingRate d.one_house_owner.base_rates holding_period_years
          + lastMatchingRate d.one_house_owner.residence_rates residence_period_years)
        (d.one_house_owner.max_rate.getD (80 / 100))
  else
    min (lastMatchingRate d.general.rates holding_period_years)
        (d.general.max_rate.getD (30 / 100))

/-- Comparison operators of `_evaluate_condition`
(`eq/ne/lt/lte/gt/gte`). -/
inductive CondOp
  | eq
  | ne
  | lt
  | lte
  | gt
  | gte
deriving DecidableEq

/-- A value in the fact dict handed to the condition evaluator. Python
compares `bool` and `int` through `bool`'s integer value. -/
inductive FactValue
  | boolV (b : Bool)
  | intV (n : Int)
deriving DecidableEq

/-- Python's numeric view of a fact value (`True` is 1, `False` is 0). -/
def FactValue.toInt : FactValue → Int
  | .boolV b => if b then 1 else 0
  | .intV n => n

/-- `RuleEngine._evaluate_condition` on the value types occurring in the
exemption fact dict. -/
def evaluate_condition (fact_value : FactValue) (op : CondOp)
    (target_value : FactValue) : Bool :=
  match op with
  | .eq => decide (fact_value.toInt = target_value.toInt)
  | .ne => decide (fact_value.toInt ≠ target_value.toInt)
  | .lt => decide (fact_value.toInt < target_value.toInt)
  | .lte => decide (fact_value.toInt ≤ target_value.toInt)
  | .gt => decide (target_value.toInt < fact_value.toInt)
  | .gte => decide (target_value.toInt ≤ fact_value.toInt)

/-- One row of `one_house_exemption.conditions[]`. -/
structure ExemptionCondition where
  field : String
  op : CondOp
  value : FactValue
deriving DecidableEq

/-- `deductions.one_house_exemption` section of the rule table
(`exemption_limit` defaults to 0 when absent). -/
structure OneHouseExemption where
  name : String
  conditions : List ExemptionCondition
  exemption_limit : Option ℚ
  description : String
  legal_basis : String
deriving DecidableEq

/-- The fact dict built by `check_exemption_eligibility`, as a lookup. -/
def exemptionFactLookup (is_primary_residence : Bool)
    (residence_period_years holding_period_years : Int)
    (field_name : String) : Option FactValue :=
  if field_name = "is_primary_residence" then some (.boolV is_primary_residence)
  else if field_name = "residence_period_years" then some (.intV residence_period_years)
  else if field_name = "holding_period_years" then some (.intV holding_period_years)
  else none

/-- `RuleEngine._check_conditions`: all conditions must hold; a condition
on a field missing from the fact dict fails. -/
def check_conditions (conditions : List ExemptionCondition)
    (facts : String → Option FactValue) : Bool :=
  conditions.all fun c =>
    match facts c.field with
    | none => false
    | some v => evaluate_condition v c.op c.value

/-- `RuleEngine.check_exemption_eligibility`: the exemption record when all
its conditions hold on the given facts, else `None`. -/
def check_exemption_eligibility (ex : OneHouseExemption)
    (is_primary_residence : Bool)
    (residence_period_years holding_period_years : Int) :
    Option OneHouseExemption :=
  if check_conditions ex.conditions
      (exemptionFactLookup is_primary_residence residence_period_years
        holding_period_years) then
    some ex
  else none

/-- The rule table loaded by `RuleEngine` from its YAML source, restricted
to the sections the calculator queries.  `basic_deduction_amount` models
`additional_considerations.basic_deduction.amount` and
`local_income_tax_rate` models `additional_considerations.local_income_tax.rate`. -/
structure RuleTable where
  version : String
  progressive_tax_brackets : List Bracket
  short_term_rates : List ShortTermRow
  long_term_holding_deduction : LongTermHoldingDeduction
  one_house_exemption : OneHouseExemption
  multi_house_surcharge : MultiHouseSurcharge
  basic_deduction_amount : ℚ
  local_income_tax_rate : ℚ
deriving DecidableEq

/-- Modelled from the spec: the repository queries
`rules/tax_rules_2024.yaml`, which is not part of the source tree here.
The table is reconstructed from the spec's rule-table schema (section 6),
its reference scenarios (section 8), and the values the repository's test
suite asserts: version "2024.11"; the 2023+ Korean progressive brackets
(6% to 1,400만, 15%/126만 to 5,000만, 24%/576만 to 8,800만, 35%/1,544만 to
1.5억, 38%/1,994만 to 3억, 40%/2,594만 to 5억, 42%/3,594만 to 10억, then
45%/6,594만); short-term residential rates 70% under 1 year and 60% for
1–2 years (non-residential 50%/40%); general long-term deduction 2% per
year from 3 years capped at 30%; one-house-owner rates consistent with the
tests (5 years held → 16%, 3 years resided → 12%, cap 80%); exemption for
a primary residence held and resided at least 2 years, limit 12억;
surcharges 20%p (2 houses) and 30%p (3+); basic deduction 250만; local
income tax 10%. -/
def rules2024 : RuleTable :=
  { version := "2024.11"
    progressive_tax_brackets :=
      [⟨some 14000000, 0.06, some 0, "~1,400만원"⟩,
       ⟨some 50000000, 0.15, some 1260000, "~5,000만원"⟩,
       ⟨some 88000000, 0.24, some 5760000, "~8,800만원"⟩,
       ⟨some 150000000, 0.35, some 15440000, "~1.5억원"⟩,
       ⟨some 300000000, 0.38, some 19940000, "~3억원"⟩,
       ⟨some 500000000, 0.40, some 25940000, "~5억원"⟩,
       ⟨some 1000000000, 0.42, some 35940000, "~10억원"⟩,
       ⟨none, 0.45, some 65940000, "10억원 초과"⟩]
    short_term_rates :=
      [⟨"residential_under_1year", "residential", some 0, some 1, 0.70, "주택 1년 미만", "소득세법 제104조"⟩,
       ⟨"residential_1_to_2years", "residential", some 1, some 2, 0.60, "주택 1년 이상 2년 미만", "소득세법 제104조"⟩,
       ⟨"non_residential_under_1year", "non_residential", some 0, some 1, 0.50, "일반 1년 미만", "소득세법 제104조"⟩,
       ⟨"non_residential_1_to_2years", "non_residential", some 1, some 2, 0.40, "일반 1년 이상 2년 미만", "소득세법 제104조"⟩]
    long_term_holding_deduction :=
      { one_house_owner :=
          { base_rates := [(3, 0.12), (4, 0.16), (6, 0.24), (8, 0.32), (10, 0.40)]
            residence_rates := [(2, 0.08), (3, 0.12), (4, 0.16), (6, 0.24), (8, 0.32), (10, 0.40)]
            max_rate := some 0.80 }
        general :=
          { rates := [(3, 0.06), (4, 0.08), (5, 0.10), (6, 0.12), (7, 0.14),
                      (8, 0.16), (9, 0.18), (10, 0.20), (11, 0.22), (12, 0.24),
                      (13, 0.26), (14, 0.28), (15, 0.30)]
            max_rate := some 0.30 } }
    one_house_exemption :=
      { name := "one_house_exemption"
        conditions :=
          [⟨"is_primary_residence", .eq, .boolV true⟩,
           ⟨"residence_period_years", .gte, .intV 2⟩,
           ⟨"holding_period_years", .gte, .intV 2⟩]
        exemption_limit := some 1200000000
        description := "1세대 1주택 비과세"
        legal_basis := "소득세법 제89조" }
    multi_house_surcharge :=
      { two_houses := ⟨some 0.20⟩
        three_or_more_houses := ⟨some 0.30⟩ }
    basic_deduction_amount := 2500000
    local_income_tax_rate := 0.10 }

/-- Errors raised inside `TaxCalculator.calculate`. -/
inductive CalcError
  /-- "FactLedger가 확정되지 않았습니다..." (ledger not frozen). -/
  | ledgerNotFrozen
  /-- A required fact slot is absent: the attribute access
  `fact_ledger.<field>.value` (or the `None` holding period reaching a
  comparison) raises. -/
  | missingRequiredFact
  /-- "단기보유 세율을 찾을 수 없습니다..." (`ValueError`, no covering
  short-term row). -/
  | shortTermRateNotFound
  /-- `brackets[-1]` on an empty bracket table (`IndexError`). -/
  | emptyBracketTable
deriving DecidableEq

/-- One `CalculationTrace` entry, modelled by its identifying fields
(`step_name`, `applied_rule`).  The snapshot dictionaries, formula strings,
legal citations and the timestamp are presentation data carried alongside
and are not modelled. -/
structure TraceStep where
  step_name : String
  applied_rule : String
deriving DecidableEq

/-- A warning accumulated by `calculate`, modelled by its identity and the
values interpolated into the message string. -/
inductive CalcWarning
  /-- "양도가액이 비과세 한도(...)를 초과합니다. 초과분에 대해 과세됩니다." -/
  | exemptionLimitExceeded (exemption_limit : ℚ)
  /-- "다주택자 중과세율 적용: ...%p 추가 (조정대상지역 ...주택)" -/
  | multiHouseSurcharge (surcharge_rate : ℚ) (house_count : Int)
deriving DecidableEq

/-- The calculation result record as assembled by `TaxCalculator.calculate`
and `_create_exempt_result`: exactly the keyword arguments passed at those
two construction sites (the `CalculationResult` dataclass in
`calculation_trace.py` declares a different field set; see the constructor
lemmas below). -/
structure CalculationResult where
  fact_ledger_id : String
  transfer_income : ℚ
  long_term_deduction : ℚ
  transfer_income_amount : ℚ
  basic_deduction : ℚ
  taxable_income : ℚ
  base_tax_rate : ℚ
  progressive_deduction : ℚ
  surcharge_rate : ℚ
  calculated_tax : ℚ
  local_tax : ℚ
  exemption_amount : ℚ
  final_tax : ℚ
  traces : List TraceStep
  rule_version : String
  warnings : List CalcWarning
deriving DecidableEq

/-- Intermediate record returned by `_calculate_tax` /
`_calculate_short_term_tax`. -/
structure TaxStepResult where
  base_tax_rate : ℚ
  progressive_deduction : ℚ
  surcharge_rate : ℚ
  calculated_tax : ℚ
  traces : List TraceStep
  warnings : List CalcWarning
deriving DecidableEq

/-- `TaxCalculator._calculate_short_term_tax`: flat proportional rate from
the short-term table; a missing row is a fatal `ValueError`. -/
def calculate_short_term_tax (rt : RuleTable) (taxable_income : ℚ)
    (asset_type : String) (holding_period_years : Int)
    (traces : List TraceStep) (warnings : List CalcWarning) :
    Except CalcError TaxStepResult :=
  match get_short_term_rate rt.short_term_rates asset_type holding_period_years with
  | none => .error .shortTermRateNotFound
  | some row =>
    .ok { base_tax_rate := row.rate
          progressive_deduction := 0
          surcharge_rate := 0
          calculated_tax := taxable_income * row.rate
          traces := traces ++ [⟨"calculate_short_term_tax", row.name⟩]
          warnings := warnings }

/-- `TaxCalculator._calculate_tax`: the short-term flat-rate path under 2
years, otherwise the progressive path with the multi-house surcharge (and
its warning when positive). -/
def calculate_tax_step (rt : RuleTable) (taxable_income : ℚ)
    (asset_type : String) (house_count : Int) (holding_period_years : Int)
    (is_adjusted_area : Bool) (traces : List TraceStep)
    (warnings : List CalcWarning) : Except CalcError TaxStepResult :=
  if holding_period_years < 2 then
    calculate_short_term_tax rt taxable_income asset_type holding_period_years
      traces warnings
  else
    match calculate_progressive_tax rt.progressive_tax_brackets taxable_income with
    | none => .error .emptyBracketTable
    | some (base_tax_rate, progressive_deduction, _description) =>
      let surcharge_rate :=
        get_multi_house_surcharge rt.multi_house_surcharge house_count
          is_adjusted_area holding_period_years
      let total_rate := base_tax_rate + surcharge_rate
      let calculated_tax := max (taxable_income * total_rate - progressive_deduction) 0
      let warnings :=
        if 0 < surcharge_rate then
          warnings ++ [.multiHouseSurcharge surcharge_rate house_count]
        else warnings
      .ok { base_tax_rate := base_tax_rate
            progressive_deduction := progressive_deduction
            surcharge_rate := surcharge_rate
            calculated_tax := calculated_tax
            traces := traces ++ [⟨"calculate_progressive_tax", "progressive_tax_brackets"⟩]
            warnings := warnings }

/-- Steps 5–11 of `calculate` (everything after the exemption check):
long-term deduction, transfer-income amount, basic deduction, rate
application, local tax, result assembly with `exemption_amount = 0`. -/
def continueCalculation (rt : RuleTable) (l : FactLedger)
    (is_adjusted_area : Bool) (transfer_income : ℚ)
    (holding_period_years : Int) (is_primary_residence : Bool)
    (residence_period_years : Int) (traces : List TraceStep)
    (warnings : List CalcWarning) : Except CalcError CalculationResult :=
  let deduction_rate :=
    calculate_long_term_deduction_rate rt.long_term_holding_deduction
      holding_period_years is_primary_residence residence_period_years
  let long_term_deduction := transfer_income * deduction_rate
  let traces := traces ++ [⟨"calculate_long_term_deduction", "long_term_holding_deduction"⟩]
  let transfer_income_amount := max (transfer_income - long_term_deduction) 0
  let traces := traces ++ [⟨"calculate_transfer_income_amount", "basic_calculation"⟩]
  let basic_deduction := rt.basic_deduction_amount
  let taxable_income := max (transfer_income_amount - basic_deduction) 0
  let traces := traces ++ [⟨"apply_basic_deduction", "basic_deduction"⟩]
  let asset_type := (l.asset_type.map (·.value)).getD "residential"
  let house_count := (l.house_count.map (·.value)).getD 1
  match calculate_tax_step rt taxable_income asset_type house_count
      holding_period_years is_adjusted_area traces warnings with
  | .error e => .error e
  | .ok ts =>
    let local_tax := ts.calculated_tax * rt.local_income_tax_rate
    let traces := ts.traces ++ [⟨"calculate_local_tax", "local_income_tax"⟩]
    let final_tax := ts.calculated_tax + local_tax
    .ok { fact_ledger_id := l.transaction_id
          transfer_income := transfer_income
          long_term_deduction := long_term_deduction
          transfer_income_amount := transfer_income_amount
          basic_deduction := basic_deduction
          taxable_income := taxable_income
          base_tax_rate := ts.base_tax_rate
          progressive_deduction := ts.progressive_deduction
          surcharge_rate := ts.surcharge_rate
          calculated_tax := ts.calculated_tax
          local_tax := local_tax
          exemption_amount := 0
          final_tax := final_tax
          traces := traces
          rule_version := rt.version
          warnings := ts.warnings }

/-- `TaxCalculator.calculate`: requires a frozen ledger, computes the
transfer income, runs the primary-residence exemption check (full
exemption short-circuits; over the limit only warns), then hands off to
the remaining steps. -/
def calculate (rt : RuleTable) (l : FactLedger) (is_adjusted_area : Bool) :
    Except CalcError CalculationResult :=
  if l.is_frozen = false then .error .ledgerNotFrozen
  else
    match l.disposal_price, l.acquisition_price, l.acquisition_date, l.disposal_date with
    | some dp, some ap, some ad, some dd =>
      let necessary_expenses : ℚ :=
        (l.acquisition_cost.map (·.value)).getD 0
          + (l.disposal_cost.map (·.value)).getD 0
          + (l.improvement_cost.map (·.value)).getD 0
      let transfer_income := dp.value - ap.value - necessary_expenses
      let traces : List TraceStep := [⟨"calculate_transfer_income", "basic_formula"⟩]
      let is_primary := (l.is_primary_residence.map (·.value)).getD false
      let residence_years := (l.residence_period_years.map (·.value)).getD 0
      let holding_years := Int.fdiv (dd.value.toDays - ad.value.toDays) 365
      match check_exemption_eligibility rt.one_house_exemption is_primary
          residence_years holding_years with
      | some info =>
        if dp.value ≤ info.exemption_limit.getD 0 then
          .ok { fact_ledger_id := l.transaction_id
                transfer_income := transfer_income
                long_term_deduction := 0
                transfer_income_amount := transfer_income
                basic_deduction := 0
                taxable_income := 0
                base_tax_rate := 0
                progressive_deduction := 0
                surcharge_rate := 0
                calculated_tax := 0
                local_tax := 0
                exemption_amount := transfer_income
                final_tax := 0
                traces := traces ++ [⟨"check_exemption", info.name⟩]
                rule_version := rt.version
                warnings := [] }
        else
          continueCalculation rt l is_adjusted_area transfer_income
            holding_years is_primary residence_years
            (traces ++ [⟨"check_exemption", "no_exemption"⟩])
            [.exemptionLimitExceeded (info.exemption_limit.getD 0)]
      | none =>
        continueCalculation rt l is_adjusted_area transfer_income
          holding_years is_primary residence_years
          (traces ++ [⟨"check_exemption", "no_exemption"⟩]) []
    | _, _, _, _ => .error .missingRequiredFact

/-- Field names declared by the `CalculationResult` dataclass in
`calculation_trace.py`, in declaration order. -/
def calculationResultDataclassFields : List String :=
  ["fact_ledger_id", "transfer_income", "long_term_deduction",
   "taxable_income", "tax_rate", "calculated_tax", "exemption_amount",
   "final_tax", "traces", "calculation_time", "rule_version", "warnings"]

/-- The dataclass fields of `CalculationResult` that have no default value
(every one of them must be supplied at each construction site). -/
def calculationResultRequiredDataclassFields : List String :=
  ["fact_ledger_id", "transfer_income", "long_term_deduction",
   "taxable_income", "tax_rate", "calculated_tax", "exemption_amount",
   "final_tax", "traces"]

/-- The keyword arguments `TaxCalculator.calculate` passes to the
`CalculationResult` constructor (tax_calculator.py lines 127–144; the
`_create_exempt_result` site passes the same names). -/
def calculateResultCallKwargs : List String :=
  ["fact_ledger_id", "transfer_income", "long_term_deduction",
   "transfer_income_amount", "basic_deduction", "taxable_income",
   "base_tax_rate", "progressive_deduction", "surcharge_rate",
   "calculated_tax", "local_tax", "exemption_amount", "final_tax",
   "traces", "rule_version", "warnings"]

/-- A Python dataclass constructor call with the given keyword arguments
succeeds exactly when every keyword names a declared field and every
field without a default is supplied. -/
def dataclassCallOk (fields required kwargs : List String) : Bool :=
  kwargs.all (fields.contains ·) && required.all (kwargs.contains ·)

/-- A confirmed user-input fact, as built throughout the repository's test
suite (`Fact(value=..., is_confirmed=True, confidence=1.0, ...)`). -/
def confirmedFact {α : Type} (v : α) : Fact α :=
  ⟨v, "user_input", 1, true, "tester", none, none, none, none⟩

/-- Scenario A of the spec (and `test_basic_case_3_years`): acquisition
2020-01-01 at 5억, disposal 2023-01-01 at 8억, no primary residence,
general region; draft state. -/
def scenarioADraft : FactLedger :=
  { transaction_id := "scenario-a"
    transaction_date := none
    asset_type := some (confirmedFact "residential")
    asset_description := none
    acquisition_date := some (confirmedFact ⟨2020, 1, 1⟩)
    acquisition_price := some (confirmedFact 500000000)
    disposal_date := some (confirmedFact ⟨2023, 1, 1⟩)
    disposal_price := some (confirmedFact 800000000)
    acquisition_cost := none
    disposal_cost := none
    improvement_cost := none
    is_primary_residence := none
    residence_period_years := none
    house_count := none
    created_by := "tester"
    version := 1
    notes := none
    is_frozen := false }

/-- Scenario A after `freeze()`. -/
def scenarioAFrozen : FactLedger :=
  { scenarioADraft with is_frozen := true }

/-- Day number of 2020-01-01, the scenario-A acquisition date. -/
theorem toDays_2020_01_01 : (Date.mk 2020 1 1).toDays = 18262 := by decide

/-- Day number of 2023-01-01, the scenario-A disposal date. -/
theorem toDays_2023_01_01 : (Date.mk 2023 1 1).toDays = 19358 := by decide

/-- Scenario A holds for 1096 days, which is 3 whole years. -/
theorem fdiv_1096_365 : Int.fdiv 1096 365 = 3 := by decide

/-- The full result record `calculate` produces on scenario A. -/
def scenarioAResult : CalculationResult :=
  { fact_ledger_id := "scenario-a"
    transfer_income := 300000000
    long_term_deduction := 18000000
    transfer_income_amount := 282000000
    basic_deduction := 2500000
    taxable_income := 279500000
    base_tax_rate := 0.38
    progressive_deduction := 19940000
    surcharge_rate := 0
    calculated_tax := 86270000
    local_tax := 8627000
    exemption_amount := 0
    final_tax := 94897000
    traces :=
      [⟨"calculate_transfer_income", "basic_formula"⟩,
       ⟨"check_exemption", "no_exemption"⟩,
       ⟨"calculate_long_term_deduction", "long_term_holding_deduction"⟩,
       ⟨"calculate_transfer_income_amount", "basic_calculation"⟩,
       ⟨"apply_basic_deduction", "basic_deduction"⟩,
       ⟨"calculate_progressive_tax", "progressive_tax_brackets"⟩,
       ⟨"calculate_local_tax", "local_income_tax"⟩]
    rule_version := "2024.11"
    warnings := [] }

set_option maxHeartbeats 1600000 in
/-- Evaluating the calculator on scenario A. -/
theorem scenarioA_calculate_eq :
    calculate rules2024 scenarioAFrozen false = .ok scenarioAResult := by
  norm_num [calculate, continueCalculation, calculate_tax_step,
    calculate_short_term_tax, calculate_progressive_tax, bracketMatches,
    get_short_term_rate, get_multi_house_surcharge,
    calculate_long_term_deduction_rate, lastMatchingRate,
    check_exemption_eligibility, check_conditions, evaluate_condition,
    exemptionFactLookup, FactValue.toInt, confirmedFact,
    toDays_2020_01_01, toDays_2023_01_01, fdiv_1096_365,
    scenarioAFrozen, scenarioADraft, scenarioAResult, rules2024, List.find?]

/-- C1: `TaxCalculator.calculate` assembles its result with keyword
arguments carrying every intermediate (`transfer_income_amount`,
`basic_deduction`, `base_tax_rate`, `progressive_deduction`,
`surcharge_rate`, `local_tax`, ...), but the `CalculationResult` dataclass
in `calculation_trace.py` does not declare those fields and it requires a
`tax_rate` argument the call never passes — so the construction raises
`TypeError` instead of returning the documented result.  The claim (and
the repository's own tests, which read `result.transfer_income_amount`
etc.) describe the intended result; the dataclass contradicts them. -/
theorem calcResult_constructor_kwargs_mismatch :
    dataclassCallOk calculationResultDataclassFields
      calculationResultRequiredDataclassFields calculateResultCallKwargs = false
  ∧ "transfer_income_amount" ∈ calculateResultCallKwargs
  ∧ "transfer_income_amount" ∉ calculationResultDataclassFields
  ∧ "base_tax_rate" ∈ calculateResultCallKwargs
  ∧ "base_tax_rate" ∉ calculationResultDataclassFields
  ∧ "local_tax" ∈ calculateResultCallKwargs
  ∧ "local_tax" ∉ calculationResultDataclassFields
  ∧ "tax_rate" ∈ calculationResultRequiredDataclassFields
  ∧ "tax_rate" ∉ calculateResultCallKwargs := by decide

/-- C2: on scenario A (acquisition 2020-01-01 at 500,000,000, disposal
2023-01-01 at 800,000,000, no primary-residence exemption, general
region), the calculation produces transfer_income 300,000,000, long-term
deduction 18,000,000, taxable income 279,500,000, base rate 0.38,
progressive deduction 19,940,000, calculated tax 86,270,000, local tax
8,627,000 and final tax 94,897,000. -/
theorem scenarioA_claimed_values :
    (calculate rules2024 scenarioAFrozen false).map (·.transfer_income) = .ok 300000000
  ∧ (calculate rules2024 scenarioAFrozen false).map (·.long_term_deduction) = .ok 18000000
  ∧ (calculate rules2024 scenarioAFrozen false).map (·.taxable_income) = .ok 279500000
  ∧ (calculate rules2024 scenarioAFrozen false).map (·.base_tax_rate) = .ok 0.38
  ∧ (calculate rules2024 scenarioAFrozen false).map (·.progressive_deduction) = .ok 19940000
  ∧ (calculate rules2024 scenarioAFrozen false).map (·.calculated_tax) = .ok 86270000
  ∧ (calculate rules2024 scenarioAFrozen false).map (·.local_tax) = .ok 8627000
  ∧ (calculate rules2024 scenarioAFrozen false).map (·.final_tax) = .ok 94897000 := by
  refine ⟨?_, ?_, ?_, ?_, ?_, ?_, ?_, ?_⟩ <;>
    simp [scenarioA_calculate_eq, scenarioAResult, Except.map]

theorem checkFact_eq_ok {α : Type} {n : String} {s : Option (Fact α)}
    {f : Fact α} (h : checkFact n s = .ok f) :
    s = some f ∧ f.is_confirmed = true := by
  cases s with
  | none => simp [checkFact] at h
  | some g =>
    by_cases hc : g.is_confirmed
    · simp only [checkFact, hc, if_true] at h
      cases h
      exact ⟨rfl, hc⟩
    · simp [checkFact, hc] at h

theorem checkFact_of_presentConfirmed {α : Type} {s : Option (Fact α)}
    (n : String) (h : presentConfirmed s = true) :
    ∃ f, checkFact n s = .ok f := by
  cases s with
  | none => simp [presentConfirmed] at h
  | some g => exact ⟨g, by simp [checkFact, presentConfirmed] at h ⊢; simp [h]⟩

theorem presentConfirmed_of_checkFact_ok {α : Type} {n : String}
    {s : Option (Fact α)} {f : Fact α} (h : checkFact n s = .ok f) :
    presentConfirmed s = true := by
  obtain ⟨hs, hc⟩ := checkFact_eq_ok h
  rw [hs]
  simpa [presentConfirmed] using hc

theorem validate_ok_iff (l : FactLedger) :
    l.validate = .ok () ↔
      (datesOrdered l = true
        ∧ nonnegAmount l.acquisition_price = true
        ∧ nonnegAmount l.disposal_price = true
        ∧ nonnegAmount l.acquisition_cost = true
        ∧ nonnegAmount l.disposal_cost = true
        ∧ nonnegAmount l.improvement_cost = true
        ∧ nonnegPeriod l.residence_period_years = true) := by
  unfold FactLedger.validate
  split_ifs <;> simp_all

theorem frozen_of_freeze_ok {l l' : FactLedger} (h : l.freeze = .ok l') :
    l'.is_frozen = true := by
  by_cases hf : l.is_frozen
  · simp [FactLedger.freeze, hf] at h
  · rw [Bool.not_eq_true] at hf
    unfold FactLedger.freeze at h
    simp only [hf, Bool.false_eq_true, if_false] at h
    rcases h1 : checkFact "acquisition_date" l.acquisition_date with e | f1
    · simp [h1] at h
    rcases h2 : checkFact "acquisition_price" l.acquisition_price with e | f2
    · simp [h1, h2] at h
    rcases h3 : checkFact "disposal_date" l.disposal_date with e | f3
    · simp [h1, h2, h3] at h
    rcases h4 : checkFact "disposal_price" l.disposal_price with e | f4
    · simp [h1, h2, h3, h4] at h
    rcases hv : l.validate with e | u
    · simp [h1, h2, h3, h4, hv] at h
    cases u
    simp only [h1, h2, h3, h4, hv] at h
    cases h
    rfl

/-- C3: `freeze()` succeeds exactly when the ledger is not already frozen,
the four required fields are present and confirmed, and the structural
checks pass (disposal date not before acquisition date; prices, costs and
the residence period non-negative where present); and a second `freeze()`
on the frozen result always raises the double-freeze error. -/
theorem freeze_success_iff :
    (∀ l : FactLedger,
        (∃ l', l.freeze = .ok l') ↔
          (l.is_frozen = false
            ∧ presentConfirmed l.acquisition_date = true
            ∧ presentConfirmed l.acquisition_price = true
            ∧ presentConfirmed l.disposal_date = true
            ∧ presentConfirmed l.disposal_price = true
            ∧ datesOrdered l = true
            ∧ nonnegAmount l.acquisition_price = true
            ∧ nonnegAmount l.disposal_price = true
            ∧ nonnegAmount l.acquisition_cost = true
            ∧ nonnegAmount l.disposal_cost = true
            ∧ nonnegAmount l.improvement_cost = true
            ∧ nonnegPeriod l.residence_period_years = true))
  ∧ (∀ l l' : FactLedger, l.freeze = .ok l' →
      l'.freeze = .error .alreadyFrozen) := by
  constructor
  · intro l
    constructor
    · rintro ⟨l', h⟩
      by_cases hf : l.is_frozen
      · simp [FactLedger.freeze, hf] at h
      · rw [Bool.not_eq_true] at hf
        unfold FactLedger.freeze at h
        simp only [hf, Bool.false_eq_true, if_false] at h
        rcases h1 : checkFact "acquisition_date" l.acquisition_date with e | f1
        · simp [h1] at h
        rcases h2 : checkFact "acquisition_price" l.acquisition_price with e | f2
        · simp [h1, h2] at h
        rcases h3 : checkFact "disposal_date" l.disposal_date with e | f3
        · simp [h1, h2, h3] at h
        rcases h4 : checkFact "disposal_price" l.disposal_price with e | f4
        · simp [h1, h2, h3, h4] at h
        rcases hv : l.validate with e | u
        · simp [h1, h2, h3, h4, hv] at h
        cases u
        obtain ⟨hd, hn1, hn2, hn3, hn4, hn5, hn6⟩ := (validate_ok_iff l).mp hv
        exact ⟨hf, presentConfirmed_of_checkFact_ok h1,
          presentConfirmed_of_checkFact_ok h2,
          presentConfirmed_of_checkFact_ok h3,
          presentConfirmed_of_checkFact_ok h4,
          hd, hn1, hn2, hn3, hn4, hn5, hn6⟩
    · rintro ⟨hf, h1, h2, h3, h4, hd, hn1, hn2, hn3, hn4, hn5, hn6⟩
      have hv : l.validate = .ok () :=
        (validate_ok_iff l).mpr ⟨hd, hn1, hn2, hn3, hn4, hn5, hn6⟩
      obtain ⟨f1, hc1⟩ := checkFact_of_presentConfirmed "acquisition_date" h1
      obtain ⟨f2, hc2⟩ := checkFact_of_presentConfirmed "acquisition_price" h2
      obtain ⟨f3, hc3⟩ := checkFact_of_presentConfirmed "disposal_date" h3
      obtain ⟨f4, hc4⟩ := checkFact_of_presentConfirmed "disposal_price" h4
      refine ⟨{ l with is_frozen := true }, ?_⟩
      unfold FactLedger.freeze
      simp [hf, hc1, hc2, hc3, hc4, hv]
  · intro l l' h
    have hfrozen : l'.is_frozen = true := frozen_of_freeze_ok h
    unfold FactLedger.freeze
    simp [hfrozen]

/-- Witness for C3: the scenario-A draft freezes successfully, and
freezing the frozen result raises the double-freeze error. -/
theorem freeze_success_iff_witness :
    (∃ l', scenarioADraft.freeze = .ok l')
  ∧ scenarioAFrozen.freeze = .error .alreadyFrozen :=
  ⟨(freeze_success_iff.1 scenarioADraft).mpr (by decide),
   freeze_success_iff.2 scenarioADraft scenarioAFrozen (by decide)⟩

/-- C4: the `Fact` invariant `is_confirmed ⇒ confidence = 1.0`:
construction fails when the confidence is out of [0, 1] or the invariant
is violated; `confirm()` always yields a confirmed fact with confidence 1;
`update_value()` always yields an unconfirmed fact; and the invariant is
preserved by every `confirm()`/`update_value()` chain. -/
theorem fact_confirm_invariant :
    (∀ (α : Type) (value : α) (source : String) (confidence : ℚ)
        (is_confirmed : Bool) (entered_by : String)
        (notes reference rule_version reasoning_trace : Option String),
        (mkFact value source confidence is_confirmed entered_by notes
            reference rule_version reasoning_trace).isOk = true ↔
          (0 ≤ confidence ∧ confidence ≤ 1 ∧ (is_confirmed = true → confidence = 1)))
  ∧ (∀ (α : Type) (f : Fact α) (b : String) (n : Option String),
      (f.confirm b n).is_confirmed = true ∧ (f.confirm b n).confidence = 1)
  ∧ (∀ (α : Type) (f : Fact α) (v : α) (b : String) (n : Option String),
      (f.update_value v b n).is_confirmed = false)
  ∧ (∀ (α : Type) (f : Fact α) (ops : List (FactOp α)),
      factInvariant f → factInvariant (applyFactOps f ops)) := by
  refine ⟨?_, ?_, ?_, ?_⟩
  · intro α value source confidence is_confirmed entered_by notes reference
      rule_version reasoning_trace
    unfold mkFact
    split_ifs with h1 h2 <;> simp [Except.isOk, Except.toBool] <;> tauto
  · intro α f b n; exact ⟨rfl, rfl⟩
  · intro α f v b n; rfl
  · intro α f ops
    induction ops generalizing f with
    | nil => intro hf; simpa [applyFactOps] using hf
    | cons op rest ih =>
      intro hf
      cases op with
      | confirmOp b n =>
        exact ih (f.confirm b n) (by intro _; rfl)
      | updateOp v b n =>
        exact ih (f.update_value v b n) (by intro h; cases h)

/-- Witness for C4: the invariant holds after a concrete
update-then-confirm chain on a confirmed fact. -/
theorem fact_confirm_invariant_witness :
    factInvariant (applyFactOps (confirmedFact (5 : Int))
      [FactOp.updateOp 7 "editor" none, FactOp.confirmOp "reviewer" none]) :=
  fact_confirm_invariant.2.2.2 Int (confirmedFact (5 : Int))
    [FactOp.updateOp 7 "editor" none, FactOp.confirmOp "reviewer" none]
    (by decide)

/-- C7: once a ledger is frozen, every `update_field` call fails with the
distinct frozen-modification error (so no field is ever changed): the
typed slot updates all fail, and at the attribute level every field name
whatsoever is rejected before any lookup happens. -/
theorem frozen_update_field_rejected :
    (∀ (l : FactLedger) (u : FieldUpdate), l.is_frozen = true →
        l.update_field u = .error .frozenModification)
  ∧ (∀ field_name : String,
      updateFieldOutcome true field_name = .frozenError) := by
  constructor
  · intro l u h
    unfold FactLedger.update_field
    simp [h]
  · intro field_name
    rfl

/-- Witness for C7: the frozen scenario-A ledger rejects a house-count
update, and the attribute-level dispatch rejects any name when frozen. -/
theorem frozen_update_field_rejected_witness :
    scenarioAFrozen.update_field (FieldUpdate.house_count (confirmedFact 2))
      = .error .frozenModification
  ∧ updateFieldOutcome true "acquisition_price" = .frozenError :=
  ⟨frozen_update_field_rejected.1 scenarioAFrozen
      (FieldUpdate.house_count (confirmedFact 2)) rfl,
   frozen_update_field_rejected.2 "acquisition_price"⟩

/-- C6: the short-term rate lookup returns `None` for every holding of 2
years or more, and when the holding is under 2 years and no rule-table row
covers the asset type and holding period, the short-term tax step raises
the fatal not-found error instead of defaulting to any rate. -/
theorem short_term_lookup_fatal :
    (∀ (rows : List ShortTermRow) (asset_type : String) (years : Int),
        2 ≤ years → get_short_term_rate rows asset_type years = none)
  ∧ (∀ (rt : RuleTable) (taxable_income : ℚ) (asset_type : String)
        (years : Int) (traces : List TraceStep) (warnings : List CalcWarning),
        years < 2 →
        (∀ r ∈ rt.short_term_rates, shortTermRowMatches asset_type years r = false) →
        calculate_short_term_tax rt taxable_income asset_type years traces warnings
          = .error .shortTermRateNotFound) := by
  constructor
  · intro rows asset_type years h
    unfold get_short_term_rate
    simp [h]
  · intro rt taxable_income asset_type years traces warnings hy hnone
    have hfind : get_short_term_rate rt.short_term_rates asset_type years = none := by
      unfold get_short_term_rate
      rw [if_neg (by omega)]
      exact List.find?_eq_none.mpr (by simpa using hnone)
    unfold calculate_short_term_tax
    rw [hfind]

/-- Witness for C6: a 2-year residential holding gets no short-term row,
and a 1-year holding of an asset type absent from the table is a fatal
error. -/
theorem short_term_lookup_fatal_witness :
    get_short_term_rate rules2024.short_term_rates "residential" 2 = none
  ∧ calculate_short_term_tax rules2024 100000000 "land" 1 [] []
      = .error .shortTermRateNotFound :=
  ⟨short_term_lookup_fatal.1 rules2024.short_term_rates "residential" 2 (by decide),
   short_term_lookup_fatal.2 rules2024 100000000 "land" 1 [] []
     (by decide) (by decide)⟩

/-- C9: for holdings of at least 3 years, the one-house-owner summed track
(capped at its max, default 0.80) applies exactly when the asset is a
primary residence with at least 2 years of residence; a primary residence
with under 2 years of residence — like any non-primary asset — falls back
to the general track capped at its max (default 0.30). -/
theorem deduction_track_selection :
    ∀ (d : LongTermHoldingDeduction) (holding_years residence_years : Int)
      (is_primary : Bool), 3 ≤ holding_years →
      ((is_primary = true → 2 ≤ residence_years →
          calculate_long_term_deduction_rate d holding_years is_primary residence_years
            = min (lastMatchingRate d.one_house_owner.base_rates holding_years
                    + lastMatchingRate d.one_house_owner.residence_rates residence_years)
                  (d.one_house_owner.max_rate.getD (80 / 100)))
        ∧ (is_primary = true → residence_years < 2 →
            calculate_long_term_deduction_rate d holding_years is_primary residence_years
              = min (lastMatchingRate d.general.rates holding_years)
                    (d.general.max_rate.getD (30 / 100)))
        ∧ (is_primary = false →
            calculate_long_term_deduction_rate d holding_years is_primary residence_years
              = min (lastMatchingRate d.general.rates holding_years)
                    (d.general.max_rate.getD (30 / 100)))) := by
  intro d hy ry p h3
  refine ⟨?_, ?_, ?_⟩
  · intro hp hr
    unfold calculate_long_term_deduction_rate
    rw [if_neg (by omega), if_pos ⟨hp, hr⟩]
  · intro hp hr
    unfold calculate_long_term_deduction_rate
    rw [if_neg (by omega), if_neg (by omega)]
  · intro hp
    unfold calculate_long_term_deduction_rate
    rw [if_neg (by omega), if_neg (by simp [hp])]

/-- Witness for C9: at 5 years held, a primary residence with 1 year of
residence gets the general-track rate. -/
theorem deduction_track_selection_witness :
    calculate_long_term_deduction_rate rules2024.long_term_holding_deduction
        5 true 1
      = min (lastMatchingRate rules2024.long_term_holding_deduction.general.rates 5)
            (rules2024.long_term_holding_deduction.general.max_rate.getD (30 / 100)) :=
  (deduction_track_selection rules2024.long_term_holding_deduction 5 1 true
    (by decide)).2.1 rfl (by decide)

/-- C10 counterexample: `capital_gain` is an attribute of every
`FactLedger` instance (`hasattr` is true, it is a class property), yet an
unfrozen `update_field('capital_gain', fact)` still raises
`AttributeError` — from `setattr` on the read-only property — rather than
accepting and overwriting it, contradicting the claim's "exactly when the
instance has no attribute named name". -/
theorem update_field_property_cex :
    "capital_gain" ∈ factLedgerAttrNames
  ∧ (updateFieldOutcome false "capital_gain").isAttributeError = true
  ∧ updateFieldOutcome false "capital_gain" ≠ .accepted := by decide

/-- C10 (amended): on an unfrozen ledger, `update_field(name, fact)`
raises the missing-attribute `AttributeError` exactly when the class has
no attribute named `name`; every existing attribute that is not one of the
two read-only properties (`capital_gain`, `holding_period_years`) is
accepted and overwritten — including the non-Fact metadata slots such as
`version`, `created_by` and `is_frozen` — while the read-only properties
raise `AttributeError` from `setattr`. -/
theorem update_field_attr_spec :
    ∀ field_name : String,
      (updateFieldOutcome false field_name = .missingAttrError ↔
          field_name ∉ factLedgerAttrNames)
      ∧ (field_name ∈ factLedgerAttrNames →
          field_name ∉ factLedgerReadOnlyProps →
          updateFieldOutcome false field_name = .accepted)
      ∧ (field_name ∈ factLedgerReadOnlyProps →
          updateFieldOutcome false field_name = .cantSetAttrError) := by
  intro field_name
  refine ⟨⟨?_, ?_⟩, ?_, ?_⟩
  · intro h
    intro hmem
    by_cases hro : field_name ∈ factLedgerReadOnlyProps
    · simp [updateFieldOutcome, hmem, hro] at h
    · simp [updateFieldOutcome, hmem, hro] at h
  · intro h
    simp [updateFieldOutcome, h]
  · intro hmem hro
    simp [updateFieldOutcome, hmem, hro]
  · intro hro
    have hmem : field_name ∈ factLedgerAttrNames := by
      simp only [factLedgerReadOnlyProps, List.mem_cons, List.not_mem_nil,
        or_false] at hro
      rcases hro with h | h <;> simp [h, factLedgerAttrNames]
    simp [updateFieldOutcome, hmem, hro]

/-- Witness for C10 (amended): the metadata slot `version` is accepted on
an unfrozen ledger. -/
theorem update_field_attr_spec_witness :
    updateFieldOutcome false "version" = .accepted :=
  (update_field_attr_spec "version").2.1 (by decide) (by decide)

theorem find_first {α : Type} (p : α → Bool) :
    ∀ (l : List α) (i : Nat) (h : i < l.length),
      p (l.get ⟨i, h⟩) = true →
      (∀ j (hj : j < l.length), j < i → p (l.get ⟨j, hj⟩) = false) →
      l.find? p = some (l.get ⟨i, h⟩) := by
  intro l
  induction l with
  | nil => intro i h; simp at h
  | cons a tl ih =>
    intro i h hp hmin
    cases i with
    | zero =>
      simp only [List.get] at hp
      simp [List.find?_cons_of_pos, hp]
    | succ n =>
      have ha : p a = false := hmin 0 (by simp) (by omega)
      have hlen : n < tl.length := by simpa using h
      have hp' : p (tl.get ⟨n, hlen⟩) = true := by simpa using hp
      have hmin' : ∀ j (hj : j < tl.length), j < n → p (tl.get ⟨j, hj⟩) = false := by
        intro j hj hji
        have := hmin (j + 1) (by simpa using Nat.succ_lt_succ hj) (by omega)
        simpa using this
      rw [List.find?_cons_of_neg _ (by simp [ha])]
      simpa using ih n hlen hp' hmin'

/-- Adjacent brackets have non-decreasing thresholds, with the `None`
catch-all allowed only at the top. -/
def thresholdPairAscending (a b : Bracket) : Bool :=
  match a.threshold, b.threshold with
  | some x, some y => decide (x ≤ y)
  | some _, none => true
  | none, _ => false

/-- The bracket table is stored in ascending-threshold order. -/
def bracketsAscending : List Bracket → Bool
  | [] => true
  | [_] => true
  | a :: b :: rest => thresholdPairAscending a b && bracketsAscending (b :: rest)

/-- C8: the bracket lookup returns the first bracket (in table order)
whose threshold is `None` or at least the taxable income; in particular an
income exactly equal to a bracket's threshold takes that bracket (the
comparison is inclusive), and the 2024 table is stored in
ascending-threshold order. -/
theorem bracket_first_match_inclusive :
    (∀ (brackets : List Bracket) (income : ℚ) (i : Nat) (h : i < brackets.length),
        bracketMatches income (brackets.get ⟨i, h⟩) = true →
        (∀ j (hj : j < brackets.length), j < i →
          bracketMatches income (brackets.get ⟨j, hj⟩) = false) →
        calculate_progressive_tax brackets income =
          some ((brackets.get ⟨i, h⟩).rate, (brackets.get ⟨i, h⟩).deduction.getD 0,
            (brackets.get ⟨i, h⟩).description))
  ∧ (∀ (brackets : List Bracket) (income : ℚ) (i : Nat) (h : i < brackets.length),
        (brackets.get ⟨i, h⟩).threshold = some income →
        (∀ j (hj : j < brackets.length), j < i →
          bracketMatches income (brackets.get ⟨j, hj⟩) = false) →
        calculate_progressive_tax brackets income =
          some ((brackets.get ⟨i, h⟩).rate, (brackets.get ⟨i, h⟩).deduction.getD 0,
            (brackets.get ⟨i, h⟩).description))
  ∧ bracketsAscending rules2024.progressive_tax_brackets = true := by
  have hfirst : ∀ (brackets : List Bracket) (income : ℚ) (i : Nat)
      (h : i < brackets.length),
      bracketMatches income (brackets.get ⟨i, h⟩) = true →
      (∀ j (hj : j < brackets.length), j < i →
        bracketMatches income (brackets.get ⟨j, hj⟩) = false) →
      calculate_progressive_tax brackets income =
        some ((brackets.get ⟨i, h⟩).rate, (brackets.get ⟨i, h⟩).deduction.getD 0,
          (brackets.get ⟨i, h⟩).description) := by
    intro brackets income i h hp hmin
    unfold calculate_progressive_tax
    rw [find_first (bracketMatches income) brackets i h hp hmin]
  refine ⟨hfirst, ?_, by decide⟩
  intro brackets income i h hthr hmin
  refine hfirst brackets income i h ?_ hmin
  simp only [bracketMatches, hthr]
  simp

/-- Witness for C8: income exactly at the 50,000,000 threshold takes the
15% bracket with its 1,260,000 deduction. -/
theorem bracket_first_match_inclusive_witness :
    calculate_progressive_tax rules2024.progressive_tax_brackets 50000000 =
      some (0.15, 1260000, "~5,000만원") :=
  bracket_first_match_inclusive.2.1 rules2024.progressive_tax_brackets
    50000000 1 (by decide) (by decide) (by decide)

theorem calculate_tax_step_ok_warnings {rt : RuleTable} {taxable_income : ℚ}
    {asset_type : String} {house_count holding_period_years : Int}
    {is_adjusted_area : Bool} {traces : List TraceStep}
    {warnings : List CalcWarning} {ts : TaxStepResult}
    (h : calculate_tax_step rt taxable_income asset_type house_count
      holding_period_years is_adjusted_area traces warnings = .ok ts) :
    ∀ w ∈ warnings, w ∈ ts.warnings := by
  unfold calculate_tax_step at h
  split at h
  · unfold calculate_short_term_tax at h
    split at h
    · cases h
    · cases h
      intro w hw
      exact hw
  · split at h
    · cases h
    · cases h
      intro w hw
      dsimp only
      split
      · exact List.mem_append_left _ hw
      · exact hw

theorem continueCalculation_ok {rt : RuleTable} {l : FactLedger}
    {is_adjusted_area : Bool} {transfer_income : ℚ}
    {holding_period_years : Int} {is_primary_residence : Bool}
    {residence_period_years : Int} {traces : List TraceStep}
    {warnings : List CalcWarning} {res : CalculationResult}
    (h : continueCalculation rt l is_adjusted_area transfer_income
      holding_period_years is_primary_residence residence_period_years
      traces warnings = .ok res) :
    res.exemption_amount = 0
      ∧ res.transfer_income = transfer_income
      ∧ ∀ w ∈ warnings, w ∈ res.warnings := by
  unfold continueCalculation at h
  dsimp only at h
  split at h
  · cases h
  · rename_i ts hts
    cases h
    exact ⟨rfl, rfl, calculate_tax_step_ok_warnings hts⟩

/-- C5: on a frozen ledger satisfying the exemption conditions, when the
disposal price is at most the exemption limit `calculate` short-circuits
into a result whose exemption amount is the whole transfer income, whose
tax fields are all 0, and whose trace ends at the exemption check (no
further steps run); when the disposal price exceeds the limit no exemption
is applied — the excess-taxable warning is accumulated and the calculation
continues on the full gain with exemption amount 0. -/
theorem exemption_branch_spec :
    ∀ (rt : RuleTable) (l : FactLedger) (is_adjusted_area : Bool)
      (dp ap : Fact ℚ) (ad dd : Fact Date) (info : OneHouseExemption),
      l.is_frozen = true →
      l.disposal_price = some dp →
      l.acquisition_price = some ap →
      l.acquisition_date = some ad →
      l.disposal_date = some dd →
      check_exemption_eligibility rt.one_house_exemption
          ((l.is_primary_residence.map (·.value)).getD false)
          ((l.residence_period_years.map (·.value)).getD 0)
          (Int.fdiv (dd.value.toDays - ad.value.toDays) 365) = some info →
      ((dp.value ≤ info.exemption_limit.getD 0 →
          ∃ res, calculate rt l is_adjusted_area = .ok res
            ∧ res.exemption_amount = res.transfer_income
            ∧ res.transfer_income = dp.value - ap.value -
                ((l.acquisition_cost.map (·.value)).getD 0
                  + (l.disposal_cost.map (·.value)).getD 0
                  + (l.improvement_cost.map (·.value)).getD 0)
            ∧ res.calculated_tax = 0
            ∧ res.local_tax = 0
            ∧ res.final_tax = 0
            ∧ res.traces.map (·.step_name)
                = ["calculate_transfer_income", "check_exemption"])
        ∧ (info.exemption_limit.getD 0 < dp.value →
            ∀ res, calculate rt l is_adjusted_area = .ok res →
              res.exemption_amount = 0
              ∧ CalcWarning.exemptionLimitExceeded (info.exemption_limit.getD 0)
                  ∈ res.warnings
              ∧ res.transfer_income = dp.value - ap.value -
                  ((l.acquisition_cost.map (·.value)).getD 0
                    + (l.disposal_cost.map (·.value)).getD 0
                    + (l.improvement_cost.map (·.value)).getD 0))) := by
  intro rt l adj dp ap ad dd info hf hdp hap had hdd hel
  constructor
  · intro hle
    have hcalc : calculate rt l adj = .ok
        { fact_ledger_id := l.transaction_id
          transfer_income := dp.value - ap.value -
            ((l.acquisition_cost.map (·.value)).getD 0
              + (l.disposal_cost.map (·.value)).getD 0
              + (l.improvement_cost.map (·.value)).getD 0)
          long_term_deduction := 0
          transfer_income_amount := dp.value - ap.value -
            ((l.acquisition_cost.map (·.value)).getD 0
              + (l.disposal_cost.map (·.value)).getD 0
              + (l.improvement_cost.map (·.value)).getD 0)
          basic_deduction := 0
          taxable_income := 0
          base_tax_rate := 0
          progressive_deduction := 0
          surcharge_rate := 0
          calculated_tax := 0
          local_tax := 0
          exemption_amount := dp.value - ap.value -
            ((l.acquisition_cost.map (·.value)).getD 0
              + (l.disposal_cost.map (·.value)).getD 0
              + (l.improvement_cost.map (·.value)).getD 0)
          final_tax := 0
          traces := [⟨"calculate_transfer_income", "basic_formula"⟩,
            ⟨"check_exemption", info.name⟩]
          rule_version := rt.version
          warnings := [] } := by
      simp [calculate, hf, hdp, hap, had, hdd, hel, hle]
    exact ⟨_, hcalc, rfl, rfl, rfl, rfl, rfl, by simp⟩
  · intro hlt res hres
    simp only [calculate, hf, hdp, hap, had, hdd, hel] at hres
    rw [if_neg (by simp), if_neg (not_le.mpr hlt)] at hres
    obtain ⟨he, hti, hws⟩ := continueCalculation_ok hres
    exact ⟨he, hws _ (by simp), hti⟩

/-- Scenario C of the spec: a primary residence held 3 years and resided
in for 3 years, disposed of at 800,000,000 (below the 12억 limit). -/
def scenarioCFrozen : FactLedger :=
  { scenarioADraft with
      transaction_id := "scenario-c"
      is_primary_residence := some (confirmedFact true)
      residence_period_years := some (confirmedFact 3)
      is_frozen := true }

/-- Witness for C5: scenario C short-circuits into the fully exempt
result. -/
theorem exemption_branch_spec_witness :
    ∃ res, calculate rules2024 scenarioCFrozen false = .ok res
      ∧ res.exemption_amount = res.transfer_income
      ∧ res.transfer_income = (confirmedFact (800000000 : ℚ)).value
          - (confirmedFact (500000000 : ℚ)).value -
          ((scenarioCFrozen.acquisition_cost.map (·.value)).getD 0
            + (scenarioCFrozen.disposal_cost.map (·.value)).getD 0
            + (scenarioCFrozen.improvement_cost.map (·.value)).getD 0)
      ∧ res.calculated_tax = 0
      ∧ res.local_tax = 0
      ∧ res.final_tax = 0
      ∧ res.traces.map (·.step_name)
          = ["calculate_transfer_income", "check_exemption"] :=
  (exemption_branch_spec rules2024 scenarioCFrozen false
      (confirmedFact 800000000) (confirmedFact 500000000)
      (confirmedFact ⟨2020, 1, 1⟩) (confirmedFact ⟨2023, 1, 1⟩)
      rules2024.one_house_exemption rfl rfl rfl rfl rfl (by decide)).1
    (by decide)

end YSZ
